import Mathlib

/-!
Shallow embedding of the Databricks Command MCP server
(`src/vibe-databricks/tools/mcp_tools.py`).

The server's tool functions read JSON documents returned by the Databricks
REST API with `dict.get`, test Python truthiness, and format values with
`str()`.  We model JSON values (`JVal`), dictionaries as association lists,
Python truthiness (`truthy`) and stringification (`pyStr`), and then embed
the tool functions over an explicit environment that supplies the remote
API's responses (transport failures and non-2xx responses, which the code
surfaces via raised exceptions, are `Except.error` carrying the exception
text).  Timing is the idealized fake-client model used by the repository's
own testable properties: each `requests` call is instantaneous and each
`time.sleep(2)` advances the clock by exactly 2 seconds.
-/

/-- A JSON value as manipulated by the Python code (Python ints only;
the fields the code inspects are strings, and no float arithmetic occurs). -/
inductive JVal : Type where
  | null : JVal
  | bool : Bool → JVal
  | num : Int → JVal
  | str : String → JVal
  | arr : List JVal → JVal
  | obj : List (String × JVal) → JVal

/-- `d.get(k)` on a Python dict: `some v` when the key is present
(even when the value is `None`), `none` when absent. -/
def dictGet (kvs : List (String × JVal)) (k : String) : Option JVal :=
  (kvs.find? (fun kv => kv.1 == k)).map (fun kv => kv.2)

/-- Python truthiness of a value: `None`, `False`, `0`, `""`, `[]`, and
empty dicts are falsy; everything else is truthy. -/
def truthy : JVal → Bool
  | JVal.null => false
  | JVal.bool b => b
  | JVal.num n => n != 0
  | JVal.str s => !(s.isEmpty)
  | JVal.arr xs => !(xs.isEmpty)
  | JVal.obj kvs => !(kvs.isEmpty)

/-- Truthiness of a `dict.get` result: a missing key gives `None`, which is falsy. -/
def truthyOpt : Option JVal → Bool
  | none => false
  | some v => truthy v

mutual

/-- Python `repr()`: like `str()` but quotes strings; used for elements of
lists and dicts (escaping inside quoted strings is not modelled). -/
def pyRepr : JVal → String
  | JVal.null => "None"
  | JVal.bool true => "True"
  | JVal.bool false => "False"
  | JVal.num n => toString n
  | JVal.str s => "\x27" ++ s ++ "\x27"
  | JVal.arr xs => "[" ++ String.intercalate ", " (pyReprList xs) ++ "]"
  | JVal.obj kvs => "\x7b" ++ String.intercalate ", " (pyReprPairs kvs) ++ "\x7d"

/-- `repr` of each element of a Python list. -/
def pyReprList : List JVal → List String
  | [] => []
  | x :: xs => pyRepr x :: pyReprList xs

/-- `repr` of each key/value pair of a Python dict. -/
def pyReprPairs : List (String × JVal) → List String
  | [] => []
  | (k, v) :: kvs => ("\x27" ++ k ++ "\x27: " ++ pyRepr v) :: pyReprPairs kvs

end

/-- Python `str()`: the identity on strings, `repr`-like elsewhere
(`str(None) = "None"`, `str(True) = "True"`, `str(42) = "42"`). -/
def pyStr : JVal → String
  | JVal.str s => s
  | v => pyRepr v

/-- `str()` of a `dict.get` result (a missing key prints as `None`). -/
def pyStrOpt : Option JVal → String
  | none => "None"
  | some v => pyStr v

/-- Whether a JSON value is exactly the given Python string
(Python `==` between a non-string and a string is `False`). -/
def isStrVal (v : JVal) (s : String) : Bool :=
  match v with
  | JVal.str t => t == s
  | _ => false

/-- The tool-result envelope
`{"content": [{"type": "text", "text": t}], "isError": b}`
(the `isError` key is absent on success, which we model as `false`). -/
structure ToolResult : Type where
  text : String
  isError : Bool
deriving DecidableEq, Repr

/-- A command-status document as read by the code: `status.get("status")`
and `status.get("results", {})` (the `results` value, when present, is a dict). -/
structure StatusDoc : Type where
  status : Option String
  results : Option (List (String × JVal))

/-- `status.get("status") in ["Finished", "Error", "Cancelled"]`. -/
def isTerminal : Option String → Bool
  | some s => s == "Finished" || s == "Error" || s == "Cancelled"
  | none => false

/-- The result-classification section shared verbatim by
`execute_command_with_context` (lines 93-111) and
`execute_databricks_command` (lines 193-211):

  results = status.get("results", {})
  result_type = results.get("resultType", "")
  if status.get("status") == "Error" or result_type == "error":
      error_msg = results.get("cause", results.get("summary", "Unknown error"))
      return error result "Error: {error_msg}"
  result_data = results.get("data")
  output_text = str(result_data) if result_data else "Success (no output)"
  return success result output_text
-/
def classifyResult (doc : StatusDoc) : ToolResult :=
  let results := doc.results.getD []
  let result_type := (dictGet results "resultType").getD (JVal.str "")
  if doc.status == some "Error" || isStrVal result_type "error" then
    let error_msg := (dictGet results "cause").getD
      ((dictGet results "summary").getD (JVal.str "Unknown error"))
    { text := "Error: " ++ pyStr error_msg, isError := true }
  else
    let result_data := dictGet results "data"
    let output_text := if truthyOpt result_data then pyStrOpt result_data
      else "Success (no output)"
    { text := output_text, isError := false }

/-- How the poll loop exits: a terminal status document, the 120-second
budget exceeded, or a transport exception raised by a status call. -/
inductive PollExit : Type where
  | terminal : StatusDoc → PollExit
  | timedOut : PollExit
  | transport : String → PollExit

/-- The poll loop shared verbatim by both execute functions
(lines 67-91 and 167-191), in the idealized timing model: `statusAt n` is the
response to the n-th `GET /api/1.2/commands/status` call (`Except.error` when
the request raises or `raise_for_status` fires), calls are instantaneous, and
`time.sleep(2)` advances `elapsed` by 2.  `timeout = 120`; the deadline test
`time.time() - start_time > timeout` runs after each status call and uses a
strict comparison.  Returns the total number of status calls performed and
the exit condition. -/
def pollLoop (statusAt : Nat → Except String StatusDoc) (elapsed calls : Nat) :
    Nat × PollExit :=
  match statusAt calls with
  | Except.error e => (calls + 1, PollExit.transport e)
  | Except.ok doc =>
    if isTerminal doc.status then (calls + 1, PollExit.terminal doc)
    else if 120 < elapsed then (calls + 1, PollExit.timedOut)
    else pollLoop statusAt (elapsed + 2) (calls + 1)
termination_by 121 - elapsed
decreasing_by simp_wf; omega

/-- The command-submission request built by the code:
`{"clusterId": ..., "contextId": ..., "language": ..., "command": ...}`. -/
structure SubmitRequest : Type where
  clusterId : String
  contextId : String
  language : String
  command : String
deriving DecidableEq, Repr

/-- Remote responses for a context-scoped execution: the submission response
(the command id from `POST /api/1.2/commands/execute`, or the exception text
when it fails) and the stream of status responses. -/
structure ExecEnv : Type where
  submitResp : Except String String
  statusAt : Nat → Except String StatusDoc

/-- What a context-scoped execution did: the submission request it issued,
how many status calls it performed, and the tool result it returned. -/
structure ExecResult : Type where
  request : SubmitRequest
  statusCalls : Nat
  result : ToolResult

/-- `execute_command_with_context(cluster_id, context_id, code)`
(lines 49-117).  Submits the command with language hard-coded to `"python"`;
on submission failure the outer `except` returns an error result with no
polling; otherwise polls via `pollLoop` and classifies the exit: a transport
exception during polling is caught by the same outer `except`, the timeout
path returns "Error: Command timed out", and a terminal status document is
classified by `classifyResult`. -/
def execute_command_with_context (cluster_id context_id code : String)
    (env : ExecEnv) : ExecResult :=
  let req : SubmitRequest :=
    { clusterId := cluster_id, contextId := context_id,
      language := "python", command := code }
  match env.submitResp with
  | Except.error e =>
    { request := req, statusCalls := 0,
      result := { text := "Error: " ++ e, isError := true } }
  | Except.ok _command_id =>
    let pe := pollLoop env.statusAt 0 0
    { request := req, statusCalls := pe.1,
      result :=
        match pe.2 with
        | PollExit.transport e => { text := "Error: " ++ e, isError := true }
        | PollExit.timedOut =>
          { text := "Error: Command timed out", isError := true }
        | PollExit.terminal doc => classifyResult doc }

/-- The primitive Databricks API operations the execute tools can invoke. -/
inductive ApiCall : Type where
  | createContext : ApiCall
  | submitCommand : ApiCall
  | getCommandStatus : ApiCall
  | destroyContext : ApiCall
deriving DecidableEq, Repr

/-- Remote responses for a one-shot execution: the context-creation response
(`POST /api/1.2/contexts/create`), the submission response, and the stream
of status responses. -/
structure OneShotEnv : Type where
  createResp : Except String String
  submitResp : Except String String
  statusAt : Nat → Except String StatusDoc

/-- What a one-shot execution did: the ordered list of Databricks API calls
it issued and the tool result it returned. -/
structure OneShotResult : Type where
  apiCalls : List ApiCall
  result : ToolResult

/-- `execute_databricks_command(cluster_id, language, code)` (lines 140-217):
create a context, submit the command (with the caller-supplied language),
poll, classify — the same loop and classification as
`execute_command_with_context`.  Every path returns directly after
classification: the function contains no call to
`POST /api/1.2/contexts/destroy` on any path, so `apiCalls` records only
creation, submission, and status polls.  Exceptions from creation,
submission, or polling are caught by the outer `except` and returned as an
error result. -/
def execute_databricks_command (_cluster_id _language _code : String)
    (env : OneShotEnv) : OneShotResult :=
  match env.createResp with
  | Except.error e =>
    { apiCalls := [ApiCall.createContext],
      result := { text := "Error: " ++ e, isError := true } }
  | Except.ok _context_id =>
    match env.submitResp with
    | Except.error e =>
      { apiCalls := [ApiCall.createContext, ApiCall.submitCommand],
        result := { text := "Error: " ++ e, isError := true } }
    | Except.ok _command_id =>
      let pe := pollLoop env.statusAt 0 0
      { apiCalls := [ApiCall.createContext, ApiCall.submitCommand] ++
          List.replicate pe.1 ApiCall.getCommandStatus,
        result :=
          match pe.2 with
          | PollExit.transport e => { text := "Error: " ++ e, isError := true }
          | PollExit.timedOut =>
            { text := "Error: Command timed out", isError := true }
          | PollExit.terminal doc => classifyResult doc }

/-- Interpret a JSON value as a Python list (the code iterates the
`catalogs` value directly; payloads are assumed well-typed). -/
def asArr : JVal → List JVal
  | JVal.arr xs => xs
  | _ => []

/-- Interpret a JSON value as a Python dict (the code calls `.get` on it;
payloads are assumed well-typed). -/
def asObj : JVal → List (String × JVal)
  | JVal.obj kvs => kvs
  | _ => []

/-- `create_context(cluster_id, language)` (lines 28-46): posts to
`/api/1.2/contexts/create`; `resp` is the context id extracted from the
response body, or the exception text when the request raises or
`raise_for_status` fires.  The whole body sits in `try/except`, so the
failure path returns an error result instead of raising. -/
def create_context (cluster_id language : String)
    (resp : Except String String) : ToolResult :=
  match resp with
  | Except.ok context_id =>
    { text := "Context created successfully!\n\nContext ID: " ++ context_id ++
        "\nCluster ID: " ++ cluster_id ++ "\nLanguage: " ++ language ++
        "\n\nUse this context_id for subsequent commands to maintain state.",
      isError := false }
  | Except.error e =>
    { text := "Error creating context: " ++ e, isError := true }

/-- The per-catalog lines appended by the loop in `list_catalogs`
(lines 234-239): name always, comment only when truthy, then owner and
created_at, each printed with `str()`. -/
def catalogLines (catalog : List (String × JVal)) : String :=
  let s := "📚 " ++ pyStrOpt (dictGet catalog "name") ++ "\n"
  let s := if truthyOpt (dictGet catalog "comment") then
      s ++ "   Comment: " ++ pyStrOpt (dictGet catalog "comment") ++ "\n"
    else s
  let s := s ++ "   Owner: " ++ pyStrOpt (dictGet catalog "owner") ++ "\n"
  s ++ "   Created: " ++ pyStrOpt (dictGet catalog "created_at") ++ "\n\n"

/-- `list_catalogs()` (lines 222-246): `resp` is the parsed JSON body of
`GET /api/2.1/unity-catalog/catalogs`, or the exception text on failure.
`catalogs = data.get("catalogs", [])`; the output starts with a count header
and appends `catalogLines` per catalog.  The whole body sits in
`try/except`, so the failure path returns an error result. -/
def list_catalogs (resp : Except String (List (String × JVal))) : ToolResult :=
  match resp with
  | Except.error e => { text := "Error: " ++ e, isError := true }
  | Except.ok data =>
    let catalogs := asArr ((dictGet data "catalogs").getD (JVal.arr []))
    let output := "Found " ++ toString catalogs.length ++ " catalogs:\n\n"
    let output := catalogs.foldl
      (fun acc catalog => acc ++ catalogLines (asObj catalog)) output
    { text := output, isError := false }

/-- The payload of a successful JSON-RPC response: the static documents the
server returns for the first two methods (their contents are not inspected
by any claim and are elided), or a tool result for `tools/call`. -/
inductive RpcBody : Type where
  | initResult : RpcBody
  | toolsListResult : RpcBody
  | toolResult : ToolResult → RpcBody
deriving DecidableEq, Repr

/-- A JSON-RPC response from `/message`: either
`{"jsonrpc": "2.0", "id": ..., "result": ...}` or
`{"jsonrpc": "2.0", "id": ..., "error": {"code": ..., "message": ...}}`. -/
inductive RpcResponse : Type where
  | result : Option JVal → RpcBody → RpcResponse
  | rpcError : Option JVal → Int → String → RpcResponse

/-- The fifteen tool names tested by the `elif` chain of the `tools/call`
branch (lines 924-987), in source order. -/
def dispatchedTools : List String :=
  ["create_context", "execute_command_with_context", "destroy_context",
   "databricks_command", "list_catalogs", "get_catalog", "list_schemas",
   "get_schema", "list_tables", "get_table", "create_table", "create_schema",
   "update_schema", "delete_schema", "delete_table"]

/-- `message_endpoint` (lines 589-1024).  `body` is the parsed JSON request
body, or the exception text when `await request.json()` raises (in which
case `request_data` is unbound and the `except` handler answers with id
`None` and code -32603).  `toolEval name arguments` stands for the fifteen
tool-function calls of the `elif` chain (each modelled separately; none of
them raises, since each catches every exception internally).  An `elif`
chain over the fifteen names is a membership test on `dispatchedTools`; a
`tools/call` whose `name` misses all branches answers
`{"code": -32601, "message": "Unknown tool: {name}"}` with the request id,
and a method other than the three known ones answers
`{"code": -32601, "message": "Unknown method: {method}"}` likewise. -/
def message_endpoint (body : Except String (List (String × JVal)))
    (toolEval : String → List (String × JVal) → ToolResult) : RpcResponse :=
  match body with
  | Except.error e => RpcResponse.rpcError none (-32603) e
  | Except.ok request_data =>
    let idv := dictGet request_data "id"
    let method := dictGet request_data "method"
    match method with
    | some (JVal.str "initialize") => RpcResponse.result idv RpcBody.initResult
    | some (JVal.str "tools/list") =>
      RpcResponse.result idv RpcBody.toolsListResult
    | some (JVal.str "tools/call") =>
      let params := asObj ((dictGet request_data "params").getD (JVal.obj []))
      let tool_name := dictGet params "name"
      let arguments := asObj ((dictGet params "arguments").getD (JVal.obj []))
      match tool_name with
      | some (JVal.str name) =>
        if name ∈ dispatchedTools then
          RpcResponse.result idv (RpcBody.toolResult (toolEval name arguments))
        else
          RpcResponse.rpcError idv (-32601) ("Unknown tool: " ++ name)
      | other =>
        RpcResponse.rpcError idv (-32601) ("Unknown tool: " ++ pyStrOpt other)
    | other =>
      RpcResponse.rpcError idv (-32601) ("Unknown method: " ++ pyStrOpt other)

lemma pollLoop_ok_nonterminal (statusAt : Nat → Except String StatusDoc)
    (elapsed calls : Nat) (doc : StatusDoc)
    (hok : statusAt calls = Except.ok doc) (hnt : isTerminal doc.status = false)
    (hle : elapsed ≤ 120) :
    pollLoop statusAt elapsed calls =
      pollLoop statusAt (elapsed + 2) (calls + 1) := by
  rw [pollLoop, hok]
  simp [hnt, Nat.not_lt.mpr hle]

lemma pollLoop_ok_terminal (statusAt : Nat → Except String StatusDoc)
    (elapsed calls : Nat) (doc : StatusDoc)
    (hok : statusAt calls = Except.ok doc) (ht : isTerminal doc.status = true) :
    pollLoop statusAt elapsed calls = (calls + 1, PollExit.terminal doc) := by
  rw [pollLoop, hok]
  simp [ht]

lemma pollLoop_ok_deadline (statusAt : Nat → Except String StatusDoc)
    (elapsed calls : Nat) (doc : StatusDoc)
    (hok : statusAt calls = Except.ok doc) (hnt : isTerminal doc.status = false)
    (hgt : 120 < elapsed) :
    pollLoop statusAt elapsed calls = (calls + 1, PollExit.timedOut) := by
  rw [pollLoop, hok]
  simp [hnt, hgt]

lemma pollLoop_error (statusAt : Nat → Except String StatusDoc)
    (elapsed calls : Nat) (e : String)
    (herr : statusAt calls = Except.error e) :
    pollLoop statusAt elapsed calls = (calls + 1, PollExit.transport e) := by
  rw [pollLoop, herr]

/-- Against a status source that never reports a terminal status, the loop
exits through the deadline check: starting with `elapsed ≤ 120`, it performs
`(120 - elapsed) / 2 + 2` further status calls and times out — the first
call happens at time 0, the deadline comparison is strict, and it runs only
after each status call. -/
lemma pollLoop_nonterminal (statusAt : Nat → Except String StatusDoc)
    (h : ∀ n, ∃ doc, statusAt n = Except.ok doc ∧
      isTerminal doc.status = false)
    (elapsed calls : Nat) (hle : elapsed ≤ 120) :
    pollLoop statusAt elapsed calls =
      (calls + ((120 - elapsed) / 2 + 2), PollExit.timedOut) := by
  obtain ⟨doc, hok, hnt⟩ := h calls
  rw [pollLoop_ok_nonterminal statusAt elapsed calls doc hok hnt hle]
  by_cases h2 : elapsed + 2 ≤ 120
  · rw [pollLoop_nonterminal statusAt h (elapsed + 2) (calls + 1) h2]
    congr 1
    omega
  · obtain ⟨doc2, hok2, hnt2⟩ := h (calls + 1)
    rw [pollLoop_ok_deadline statusAt (elapsed + 2) (calls + 1) doc2 hok2 hnt2
      (by omega)]
    congr 1
    omega
termination_by 121 - elapsed
decreasing_by omega

lemma execute_with_context_terminal (cluster_id context_id code : String)
    (env : ExecEnv) (cid : String) (doc : StatusDoc)
    (hs : env.submitResp = Except.ok cid)
    (h0 : env.statusAt 0 = Except.ok doc)
    (ht : isTerminal doc.status = true) :
    execute_command_with_context cluster_id context_id code env =
      { request :=
          { clusterId := cluster_id, contextId := context_id,
            language := "python", command := code },
        statusCalls := 1, result := classifyResult doc } := by
  simp [execute_command_with_context, hs,
    pollLoop_ok_terminal env.statusAt 0 0 doc h0 ht]

lemma execute_with_context_timedOut (cluster_id context_id code : String)
    (env : ExecEnv) (cid : String) (hs : env.submitResp = Except.ok cid)
    (h : ∀ n, ∃ doc, env.statusAt n = Except.ok doc ∧
      isTerminal doc.status = false) :
    execute_command_with_context cluster_id context_id code env =
      { request :=
          { clusterId := cluster_id, contextId := context_id,
            language := "python", command := code },
        statusCalls := 62,
        result := { text := "Error: Command timed out", isError := true } } := by
  have hp := pollLoop_nonterminal env.statusAt h 0 0 (by omega)
  norm_num at hp
  simp [execute_command_with_context, hs, hp]

lemma execute_with_context_transport (cluster_id context_id code : String)
    (env : ExecEnv) (cid e : String) (hs : env.submitResp = Except.ok cid)
    (h0 : env.statusAt 0 = Except.error e) :
    execute_command_with_context cluster_id context_id code env =
      { request :=
          { clusterId := cluster_id, contextId := context_id,
            language := "python", command := code },
        statusCalls := 1,
        result := { text := "Error: " ++ e, isError := true } } := by
  simp [execute_command_with_context, hs,
    pollLoop_error env.statusAt 0 0 e h0]

lemma execute_with_context_submit_error (cluster_id context_id code : String)
    (env : ExecEnv) (e : String) (hs : env.submitResp = Except.error e) :
    execute_command_with_context cluster_id context_id code env =
      { request :=
          { clusterId := cluster_id, contextId := context_id,
            language := "python", command := code },
        statusCalls := 0,
        result := { text := "Error: " ++ e, isError := true } } := by
  simp [execute_command_with_context, hs]

/-- A status document that is not terminal: polling continues. -/
def runningDoc : StatusDoc := { status := some "Running", results := none }

/-- A fake remote environment whose status endpoint always answers
`Running`: submission succeeds and no poll is ever terminal. -/
def alwaysRunningEnv : ExecEnv :=
  { submitResp := Except.ok "cmd-1",
    statusAt := fun _ => Except.ok runningDoc }

/-- A status document reporting `Cancelled` with no results payload. -/
def cancelledDoc : StatusDoc := { status := some "Cancelled", results := none }

/-- A fake remote environment whose first status poll reports `Cancelled`. -/
def cancelledEnv : ExecEnv :=
  { submitResp := Except.ok "cmd-1",
    statusAt := fun _ => Except.ok cancelledDoc }

/-- A fake remote environment whose first status poll reports `Finished`
with no results payload. -/
def finishedEmptyEnv : ExecEnv :=
  { submitResp := Except.ok "cmd-1",
    statusAt := fun _ =>
      Except.ok { status := some "Finished", results := none } }

/-- C1: the claim says the one-shot `execute_databricks_command` destroys
its context on every exit path once creation succeeds.  The code never
does: on every input and environment — creation failure, submission
failure, transport error, timeout, and successful completion alike — the
sequence of Databricks API calls it issues contains no `destroyContext`,
contradicting its own docstring and tool-catalog description, which both
say the context is created and destroyed automatically. -/
theorem C1_one_shot_never_destroys_context
    (cluster_id language code : String) (env : OneShotEnv) :
    ApiCall.destroyContext ∉
      (execute_databricks_command cluster_id language code env).apiCalls := by
  cases hc : env.createResp with
  | error e => simp [execute_databricks_command, hc]
  | ok ctx =>
    cases hs : env.submitResp with
    | error e => simp [execute_databricks_command, hc, hs]
    | ok cid =>
      simp [execute_databricks_command, hc, hs, List.mem_replicate]

/-- C2 counterexample: a command whose status poll answers `Cancelled`
(with no results payload) does not get a distinct cancelled outcome — the
returned tool result is the plain success envelope `"Success (no output)"`
with no error flag, byte-identical to the result of a `Finished` command
with an empty payload. -/
theorem C2_counterexample_cancelled_reported_as_success :
    (execute_command_with_context "c1" "ctx1" "x = 1" cancelledEnv).result =
      { text := "Success (no output)", isError := false } ∧
    (execute_command_with_context "c1" "ctx1" "x = 1" cancelledEnv).result =
      (execute_command_with_context "c1" "ctx1" "x = 1"
        finishedEmptyEnv).result := by
  have h1 := execute_with_context_terminal "c1" "ctx1" "x = 1" cancelledEnv
    "cmd-1" cancelledDoc rfl rfl rfl
  have h2 := execute_with_context_terminal "c1" "ctx1" "x = 1"
    finishedEmptyEnv "cmd-1" { status := some "Finished", results := none }
    rfl rfl rfl
  rw [h1, h2]
  exact ⟨by decide, by decide⟩

/-- C2 (amended): when the status returned by the cluster API is
`Cancelled`, the code produces no distinct cancelled outcome; it classifies
the document exactly as it classifies `Finished` — an error-flagged result
when the payload's `resultType` is `"error"`, and a success-shaped result
(no error flag) otherwise. -/
theorem C2_cancelled_classified_like_finished
    (cluster_id context_id code : String) (env : ExecEnv) (cid : String)
    (doc : StatusDoc) (hs : env.submitResp = Except.ok cid)
    (h0 : env.statusAt 0 = Except.ok doc)
    (hc : doc.status = some "Cancelled") :
    (execute_command_with_context cluster_id context_id code env).result =
      classifyResult doc ∧
    (isStrVal ((dictGet (doc.results.getD []) "resultType").getD
        (JVal.str "")) "error" = true →
      (classifyResult doc).isError = true) ∧
    (isStrVal ((dictGet (doc.results.getD []) "resultType").getD
        (JVal.str "")) "error" = false →
      (classifyResult doc).isError = false) := by
  have ht : isTerminal doc.status = true := by simp [isTerminal, hc]
  refine ⟨?_, ?_, ?_⟩
  · rw [execute_with_context_terminal cluster_id context_id code env cid doc
      hs h0 ht]
  · intro herr
    simp [classifyResult, herr]
  · intro herr
    simp [classifyResult, herr, hc]

/-- C2 witness: the amended theorem applied to the concrete cancelled
environment. -/
theorem C2_cancelled_classified_like_finished_witness :
    (execute_command_with_context "c1" "ctx1" "x = 1" cancelledEnv).result =
      classifyResult cancelledDoc ∧
    (classifyResult cancelledDoc).isError = false :=
  have h := C2_cancelled_classified_like_finished "c1" "ctx1" "x = 1"
    cancelledEnv "cmd-1" cancelledDoc rfl rfl rfl
  ⟨h.1, h.2.2 (by decide)⟩

/-- C3 counterexample: against a fake client that always answers `Running`,
the poller does time out, but it performs 62 status calls, not the claimed
`floor(120 / 2) = 60`: the first call happens at elapsed time 0 and the
deadline comparison is strict and runs only after each call, so calls occur
at elapsed times 0, 2, ..., 120 and once more at 122 before the loop
exits. -/
theorem C3_counterexample_sixty_calls :
    (execute_command_with_context "c1" "ctx1" "while True: pass"
        alwaysRunningEnv).statusCalls = 62 ∧
    (execute_command_with_context "c1" "ctx1" "while True: pass"
        alwaysRunningEnv).statusCalls ≠ 60 ∧
    (execute_command_with_context "c1" "ctx1" "while True: pass"
        alwaysRunningEnv).result =
      { text := "Error: Command timed out", isError := true } := by
  have h := execute_with_context_timedOut "c1" "ctx1" "while True: pass"
    alwaysRunningEnv "cmd-1" rfl (fun _ => ⟨runningDoc, rfl, rfl⟩)
  rw [h]
  exact ⟨rfl, by decide, rfl⟩

/-- C3 (amended): for every run of the command poller against a status
source that never returns a terminal status, the poller returns the
timed-out outcome once the 120-second budget elapses, having performed
exactly 62 (= floor(budget / interval) + 2) status calls: the first call is
made at elapsed time 0 and the strict deadline check follows each call, so
one call lands at each of 0, 2, ..., 120 seconds and a final one at 122
seconds. -/
theorem C3_timeout_after_62_calls (cluster_id context_id code : String)
    (env : ExecEnv) (cid : String) (hs : env.submitResp = Except.ok cid)
    (h : ∀ n, ∃ doc, env.statusAt n = Except.ok doc ∧
      isTerminal doc.status = false) :
    (execute_command_with_context cluster_id context_id code env).statusCalls
        = 62 ∧
    (execute_command_with_context cluster_id context_id code env).result =
      { text := "Error: Command timed out", isError := true } := by
  rw [execute_with_context_timedOut cluster_id context_id code env cid hs h]
  exact ⟨rfl, rfl⟩

/-- C3 witness: the amended theorem applied to the concrete always-running
environment. -/
theorem C3_timeout_after_62_calls_witness :
    (execute_command_with_context "c1" "ctx1" "import time" 
        alwaysRunningEnv).statusCalls = 62 :=
  (C3_timeout_after_62_calls "c1" "ctx1" "import time" alwaysRunningEnv
    "cmd-1" rfl (fun _ => ⟨runningDoc, rfl, rfl⟩)).1

/-- C4: when the terminal status is `Error`, or it is `Finished` with a
results payload whose `resultType` is `"error"`, the outcome is an
error-flagged result whose message is taken from the payload's `cause`
field, else from its `summary` field, else the generic `"Unknown error"`
when both are absent; and an execution whose first poll returns such a
document returns exactly that classification. -/
theorem C4_failure_cause_extraction (doc : StatusDoc)
    (h : doc.status = some "Error" ∨
      (doc.status = some "Finished" ∧
        isStrVal ((dictGet (doc.results.getD []) "resultType").getD
          (JVal.str "")) "error" = true)) :
    (classifyResult doc).isError = true ∧
    (∀ c, dictGet (doc.results.getD []) "cause" = some c →
      (classifyResult doc).text = "Error: " ++ pyStr c) ∧
    (∀ s, dictGet (doc.results.getD []) "cause" = none →
      dictGet (doc.results.getD []) "summary" = some s →
      (classifyResult doc).text = "Error: " ++ pyStr s) ∧
    (dictGet (doc.results.getD []) "cause" = none →
      dictGet (doc.results.getD []) "summary" = none →
      (classifyResult doc).text = "Error: Unknown error") ∧
    (∀ cluster_id context_id code env cid,
      ExecEnv.submitResp env = Except.ok cid →
      ExecEnv.statusAt env 0 = Except.ok doc →
      (execute_command_with_context cluster_id context_id code env).result =
        classifyResult doc) := by
  have hcond : (doc.status == some "Error" ||
      isStrVal ((dictGet (doc.results.getD []) "resultType").getD
        (JVal.str "")) "error") = true := by
    rcases h with h | ⟨_, h2⟩
    · simp [h]
    · simp [h2]
  have ht : isTerminal doc.status = true := by
    rcases h with h | ⟨h1, _⟩
    · simp [isTerminal, h]
    · simp [isTerminal, h1]
  refine ⟨?_, ?_, ?_, ?_, ?_⟩
  · simp [classifyResult, hcond]
  · intro c hc
    simp [classifyResult, hcond, hc]
  · intro s hc hsum
    simp [classifyResult, hcond, hc, hsum]
  · intro hc hsum
    simp [classifyResult, hcond, hc, hsum, pyStr, pyRepr]
  · intro cluster_id context_id code env cid hsub h0
    rw [execute_with_context_terminal cluster_id context_id code env cid doc
      hsub h0 ht]

/-- A status document reporting `Error` whose payload carries
`cause: "NameError"`. -/
def errorCauseDoc : StatusDoc :=
  { status := some "Error", results := some [("cause", JVal.str "NameError")] }

/-- C4 witness: a status document reporting `Error` with cause
`"NameError"` is classified as the failure `"Error: NameError"`. -/
theorem C4_failure_cause_extraction_witness :
    (classifyResult errorCauseDoc).isError = true ∧
    (classifyResult errorCauseDoc).text = "Error: NameError" :=
  have h := C4_failure_cause_extraction errorCauseDoc (Or.inl rfl)
  ⟨h.1, h.2.1 (JVal.str "NameError") rfl⟩

/-- The status document of the repository's success test vector: `Finished`
with payload `resultType: "text", data: "42"`. -/
def doc42 : StatusDoc :=
  { status := some "Finished",
    results := some [("resultType", JVal.str "text"), ("data", JVal.str "42")] }

/-- A fake remote environment whose first status poll answers `doc42`. -/
def env42 : ExecEnv :=
  { submitResp := Except.ok "cmd-1", statusAt := fun _ => Except.ok doc42 }

/-- C5: when the first status poll reports `Finished` with payload
`resultType: "text", data: "42"`, the execution returns the success result
with text `"42"` and performs exactly one status call. -/
theorem C5_first_poll_success (cluster_id context_id code : String)
    (env : ExecEnv) (cid : String) (hs : env.submitResp = Except.ok cid)
    (h0 : env.statusAt 0 = Except.ok doc42) :
    (execute_command_with_context cluster_id context_id code env).statusCalls
        = 1 ∧
    (execute_command_with_context cluster_id context_id code env).result =
      { text := "42", isError := false } := by
  rw [execute_with_context_terminal cluster_id context_id code env cid doc42
    hs h0 (by decide)]
  refine ⟨rfl, ?_⟩
  show classifyResult doc42 = { text := "42", isError := false }
  decide

/-- C5 witness: the theorem applied to the concrete environment. -/
theorem C5_first_poll_success_witness :
    (execute_command_with_context "c1" "ctx1" "print(42)" env42).statusCalls
        = 1 ∧
    (execute_command_with_context "c1" "ctx1" "print(42)" env42).result =
      { text := "42", isError := false } :=
  C5_first_poll_success "c1" "ctx1" "print(42)" env42 "cmd-1" rfl rfl

/-- C6: when command submission fails (non-2xx or transport exception, both
surfaced as a raised exception from the submit call), the operation returns
the transport-error result immediately and performs zero status calls — in
the context-scoped execution the status-call count is 0, and in the
one-shot execution the API-call list after a successful context creation is
exactly creation followed by submission, with no status call. -/
theorem C6_submit_failure_no_polling :
    (∀ cluster_id context_id code env e,
      ExecEnv.submitResp env = Except.error e →
      (execute_command_with_context cluster_id context_id code
          env).statusCalls = 0 ∧
      (execute_command_with_context cluster_id context_id code env).result =
        { text := "Error: " ++ e, isError := true }) ∧
    (∀ cluster_id language code env ctx e,
      OneShotEnv.createResp env = Except.ok ctx →
      OneShotEnv.submitResp env = Except.error e →
      (execute_databricks_command cluster_id language code env).apiCalls =
        [ApiCall.createContext, ApiCall.submitCommand] ∧
      (execute_databricks_command cluster_id language code env).result =
        { text := "Error: " ++ e, isError := true }) := by
  constructor
  · intro cluster_id context_id code env e hs
    rw [execute_with_context_submit_error cluster_id context_id code env e hs]
    exact ⟨rfl, rfl⟩
  · intro cluster_id language code env ctx e hc hs
    simp [execute_databricks_command, hc, hs]

/-- A fake context-scoped environment whose submission raises a connection
error. -/
def submitFailEnv : ExecEnv :=
  { submitResp := Except.error "ConnectionError", statusAt := fun _ =>
      Except.ok runningDoc }

/-- A fake one-shot environment whose context creation succeeds and whose
submission raises a connection error. -/
def submitFailOneShotEnv : OneShotEnv :=
  { createResp := Except.ok "ctx-9",
    submitResp := Except.error "ConnectionError",
    statusAt := fun _ => Except.ok runningDoc }

/-- C6 witness: the theorem applied to concrete failing environments. -/
theorem C6_submit_failure_no_polling_witness :
    (execute_command_with_context "c1" "ctx1" "1 + 1"
        submitFailEnv).statusCalls = 0 ∧
    (execute_databricks_command "c1" "python" "1 + 1"
        submitFailOneShotEnv).apiCalls =
      [ApiCall.createContext, ApiCall.submitCommand] :=
  ⟨(C6_submit_failure_no_polling.1 "c1" "ctx1" "1 + 1" submitFailEnv
      "ConnectionError" rfl).1,
   (C6_submit_failure_no_polling.2 "c1" "python" "1 + 1"
      submitFailOneShotEnv "ctx-9" "ConnectionError" rfl rfl).1⟩

/-- C7: exceptions raised inside the tool operations are caught at the
operation's own `try/except` boundary and converted into an error-flagged
tool result whose text carries the exception message — shown here for each
fallible step of the cited operations (context creation, command
submission, a transport failure on the first status poll, and the metadata
listing); in the embedding every tool operation is a total function into
`ToolResult`, so nothing propagates across the tool-dispatch boundary. -/
theorem C7_exceptions_converted_to_tool_results :
    (∀ cluster_id language e,
      create_context cluster_id language (Except.error e) =
        { text := "Error creating context: " ++ e, isError := true }) ∧
    (∀ cluster_id context_id code env e,
      ExecEnv.submitResp env = Except.error e →
      (execute_command_with_context cluster_id context_id code env).result =
        { text := "Error: " ++ e, isError := true }) ∧
    (∀ cluster_id context_id code env cid e,
      ExecEnv.submitResp env = Except.ok cid →
      ExecEnv.statusAt env 0 = Except.error e →
      (execute_command_with_context cluster_id context_id code env).result =
        { text := "Error: " ++ e, isError := true }) ∧
    (∀ e, list_catalogs (Except.error e) =
      { text := "Error: " ++ e, isError := true }) := by
  refine ⟨fun _ _ _ => rfl, ?_, ?_, fun _ => rfl⟩
  · intro cluster_id context_id code env e hs
    rw [execute_with_context_submit_error cluster_id context_id code env e hs]
  · intro cluster_id context_id code env cid e hs h0
    rw [execute_with_context_transport cluster_id context_id code env cid e
      hs h0]

/-- A fake context-scoped environment whose first status poll raises. -/
def pollFailEnv : ExecEnv :=
  { submitResp := Except.ok "cmd-1",
    statusAt := fun _ => Except.error "ReadTimeout" }

/-- C7 witness: the theorem applied to concrete failing steps. -/
theorem C7_exceptions_converted_to_tool_results_witness :
    create_context "c1" "python" (Except.error "HTTPError") =
      { text := "Error creating context: HTTPError", isError := true } ∧
    (execute_command_with_context "c1" "ctx1" "1" pollFailEnv).result =
      { text := "Error: ReadTimeout", isError := true } ∧
    list_catalogs (Except.error "HTTPError") =
      { text := "Error: HTTPError", isError := true } :=
  ⟨C7_exceptions_converted_to_tool_results.1 "c1" "python" "HTTPError",
   C7_exceptions_converted_to_tool_results.2.2.1 "c1" "ctx1" "1" pollFailEnv
     "cmd-1" "ReadTimeout" rfl rfl,
   C7_exceptions_converted_to_tool_results.2.2.2 "HTTPError"⟩

/-- C9: every context-scoped execution submits its command with the
language field hard-coded to `"python"`, whatever language the referenced
context was created with — the operation takes no language argument and
consults nothing but its three string arguments when building the
submission request. -/
theorem C9_submit_language_always_python
    (cluster_id context_id code : String) (env : ExecEnv) :
    (execute_command_with_context cluster_id context_id code env).request =
      { clusterId := cluster_id, contextId := context_id,
        language := "python", command := code } := by
  cases hs : env.submitResp <;>
    simp [execute_command_with_context, hs]

/-- C10: when the terminal status is `Finished` and the payload's
`resultType` is not `"error"`, a missing or falsy `data` value (Python
`None`, `""`, `0`, `False`, `[]`, an empty dict) produces the fixed marker
`"Success (no output)"`, and a truthy `data` value produces `str(data)`;
either way the result carries no error flag, and an execution whose first
poll returns such a document returns exactly that classification. -/
theorem C10_falsy_data_marker (doc : StatusDoc)
    (h1 : doc.status = some "Finished")
    (h2 : isStrVal ((dictGet (doc.results.getD []) "resultType").getD
      (JVal.str "")) "error" = false) :
    (classifyResult doc).isError = false ∧
    (truthyOpt (dictGet (doc.results.getD []) "data") = false →
      (classifyResult doc).text = "Success (no output)") ∧
    (∀ v, dictGet (doc.results.getD []) "data" = some v → truthy v = true →
      (classifyResult doc).text = pyStr v) ∧
    (∀ cluster_id context_id code env cid,
      ExecEnv.submitResp env = Except.ok cid →
      ExecEnv.statusAt env 0 = Except.ok doc →
      (execute_command_with_context cluster_id context_id code env).result =
        classifyResult doc) := by
  have hcond : (doc.status == some "Error" ||
      isStrVal ((dictGet (doc.results.getD []) "resultType").getD
        (JVal.str "")) "error") = false := by
    simp [h1, h2]
  refine ⟨?_, ?_, ?_, ?_⟩
  · simp [classifyResult, hcond]
  · intro hfalsy
    simp [classifyResult, hcond, hfalsy]
  · intro v hv htruthy
    simp [classifyResult, hcond, hv, truthyOpt, htruthy, pyStrOpt]
  · intro cluster_id context_id code env cid hsub h0
    rw [execute_with_context_terminal cluster_id context_id code env cid doc
      hsub h0 (by simp [isTerminal, h1])]

/-- A `Finished` document whose `data` is the empty string (falsy). -/
def finishedEmptyStrDoc : StatusDoc :=
  { status := some "Finished", results := some [("data", JVal.str "")] }

/-- C10 witness: the theorem applied to a `Finished` document with falsy
(empty-string) data and to `doc42`, whose data `"42"` is truthy. -/
theorem C10_falsy_data_marker_witness :
    (classifyResult finishedEmptyStrDoc).text = "Success (no output)" ∧
    (classifyResult doc42).text = pyStr (JVal.str "42") :=
  ⟨(C10_falsy_data_marker finishedEmptyStrDoc rfl rfl).2.1 rfl,
   (C10_falsy_data_marker doc42 rfl rfl).2.2.1 (JVal.str "42") rfl rfl⟩

/-- C8: a `tools/call` request whose tool name matches none of the fifteen
dispatched tools is answered with a JSON-RPC error of code -32601 carrying
the request's own id, and so is every request whose method is none of
`initialize`, `tools/list`, `tools/call`. -/
theorem C8_unknown_tool_and_method_minus_32601 :
    (∀ rd toolEval name,
      dictGet rd "method" = some (JVal.str "tools/call") →
      dictGet (asObj ((dictGet rd "params").getD (JVal.obj []))) "name" =
        some (JVal.str name) →
      name ∉ dispatchedTools →
      message_endpoint (Except.ok rd) toolEval =
        RpcResponse.rpcError (dictGet rd "id") (-32601)
          ("Unknown tool: " ++ name)) ∧
    (∀ rd toolEval,
      (∀ v, dictGet rd "method" = some v →
        isStrVal v "initialize" = false ∧ isStrVal v "tools/list" = false ∧
        isStrVal v "tools/call" = false) →
      message_endpoint (Except.ok rd) toolEval =
        RpcResponse.rpcError (dictGet rd "id") (-32601)
          ("Unknown method: " ++ pyStrOpt (dictGet rd "method"))) := by
  constructor
  · intro rd toolEval name hm hn hnot
    simp only [message_endpoint, hm, hn]
    simp [hnot]
  · intro rd toolEval h
    cases hv : dictGet rd "method" with
    | none => simp [message_endpoint, hv, pyStrOpt]
    | some v =>
      obtain ⟨h1, h2, h3⟩ := h v hv
      cases v with
      | str s =>
        simp only [isStrVal, beq_iff_eq] at h1 h2 h3
        rw [beq_eq_false_iff_ne] at h1 h2 h3
        simp [message_endpoint, hv, pyStrOpt, pyStr, h1, h2, h3]
      | null => simp [message_endpoint, hv, pyStrOpt]
      | bool b => simp [message_endpoint, hv, pyStrOpt]
      | num n => simp [message_endpoint, hv, pyStrOpt]
      | arr xs => simp [message_endpoint, hv, pyStrOpt]
      | obj kvs => simp [message_endpoint, hv, pyStrOpt]

/-- A `tools/call` request body naming a tool outside the dispatch table. -/
def unknownToolReq : List (String × JVal) :=
  [("jsonrpc", JVal.str "2.0"), ("id", JVal.num 7),
   ("method", JVal.str "tools/call"),
   ("params", JVal.obj [("name", JVal.str "bogus_tool")])]

/-- A request body whose method is none of the three known methods. -/
def unknownMethodReq : List (String × JVal) :=
  [("jsonrpc", JVal.str "2.0"), ("id", JVal.num 8),
   ("method", JVal.str "resources/list")]

/-- A tool evaluator standing in for the dispatched tool functions; the
unknown-tool and unknown-method paths never reach it. -/
def trivialToolEval : String → List (String × JVal) → ToolResult :=
  fun _ _ => { text := "", isError := false }

/-- C8 witness: the theorem applied to concrete unknown-tool and
unknown-method requests, with the error's id echoing each request's id. -/
theorem C8_unknown_tool_and_method_minus_32601_witness :
    message_endpoint (Except.ok unknownToolReq) trivialToolEval =
      RpcResponse.rpcError (some (JVal.num 7)) (-32601)
        "Unknown tool: bogus_tool" ∧
    message_endpoint (Except.ok unknownMethodReq) trivialToolEval =
      RpcResponse.rpcError (some (JVal.num 8)) (-32601)
        "Unknown method: resources/list" :=
  ⟨C8_unknown_tool_and_method_minus_32601.1 unknownToolReq trivialToolEval
     "bogus_tool" rfl rfl (by decide),
   C8_unknown_tool_and_method_minus_32601.2 unknownMethodReq trivialToolEval
     (by decide)⟩
